import Mathlib

/-!
Verification of the AED wait-time scraper (`aed_wait_time_scraper.py`).

Time model: a civil (wall-clock) datetime is represented by the number of
microseconds elapsed since an arbitrary midnight epoch, as a `Nat`.  Hong
Kong time has a fixed UTC offset and no daylight saving, so wall-clock
order coincides with instant order for timestamps carrying the same
offset.  Python's timezone-aware datetimes compare by instant
(wall time minus UTC offset); we model an aware datetime as a wall time
paired with its UTC offset in seconds (`Aware`), and an instant as the
integer `wall - offset * 10^6`.
-/

def usPerSec : Nat := 1000000

def usPerMin : Nat := 60000000

def usPerHour : Nat := 3600000000

def usPerDay : Nat := 86400000000

/-- Start of the hour containing wall time `t` (what `reference_time.replace(minute=..., second=0, microsecond=0)` builds on). -/
def hourFloor (t : Nat) : Nat := usPerHour * (t / usPerHour)

/-- The `minute` component of wall time `t`. -/
def minuteOf (t : Nat) : Nat := t / usPerMin % 60

/-- The `second` component of wall time `t`. -/
def secondOf (t : Nat) : Nat := t / usPerSec % 60

/-- The `microsecond` component of wall time `t`. -/
def microOf (t : Nat) : Nat := t % usPerSec

/-- `reference_time.replace(minute=m, second=0, microsecond=0)` (line 34). -/
def replaceMinute (t m : Nat) : Nat := hourFloor t + m * usPerMin

/-- `check_minutes = [2, 17, 32, 47]` (line 31). -/
def checkMinutes : List Nat := [2, 17, 32, 47]

/-- Loop body of `get_check_times` (lines 33-37): the local `check_time` is
`replaceMinute t m`; if it is `<= reference_time`, it is advanced by one
hour. -/
def check_time_for (t m : Nat) : Nat :=
  if replaceMinute t m ≤ t then replaceMinute t m + usPerHour
  else replaceMinute t m

/-- `get_check_times(reference_time)` (lines 29-38). -/
def get_check_times (t : Nat) : List Nat :=
  checkMinutes.map (check_time_for t)

/-- The UTC offset (seconds) of a pytz-localized Hong Kong datetime, +08:00:
what `datetime.now(hk_tz)` carries. -/
def hkOffset : Nat := 28800

/-- The UTC offset (seconds) that `.replace(tzinfo=hk_tz)` attaches: a raw
pytz `DstTzInfo` used as a `tzinfo` reports the zone's first (LMT) offset,
which for `Asia/Hong_Kong` is +7:36:42 rounded by pytz to +7:37:00. -/
def hkLMT : Nat := 27420

/-- A timezone-aware datetime: wall-clock microseconds plus UTC offset in
seconds. -/
structure Aware where
  wall : Nat
  offs : Nat
deriving DecidableEq

/-- The instant an aware datetime denotes (microseconds, relative to the
epoch read as UTC).  Python compares aware datetimes by this value. -/
def instant (a : Aware) : Int := (a.wall : Int) - (a.offs : Int) * 1000000

/-- Each checkpoint lies strictly inside `(t, t + 1h]`, has the requested
minute component, and zero seconds and microseconds. -/
theorem check_time_for_spec (t m : Nat) (hm : m < 60) :
    t < check_time_for t m ∧ check_time_for t m ≤ t + usPerHour ∧
    minuteOf (check_time_for t m) = m ∧ secondOf (check_time_for t m) = 0 ∧
    microOf (check_time_for t m) = 0 := by
  have hd := Nat.div_add_mod t usPerHour
  have hmod : t % usPerHour < usPerHour := Nat.mod_lt _ (by norm_num [usPerHour])
  unfold check_time_for replaceMinute hourFloor minuteOf secondOf microOf
  unfold usPerHour usPerMin usPerSec at *
  split_ifs with hc
  · refine ⟨?_, ?_, ?_, ?_, ?_⟩ <;> omega
  · refine ⟨?_, ?_, ?_, ?_, ?_⟩ <;> omega

/-- C1: for every datetime `t`, `get_check_times(t)` returns exactly 4
distinct instants, each strictly greater than `t`, each within `(t, t+1h]`,
with minute components exactly `[2, 17, 32, 47]` and zero seconds and
microseconds. -/
theorem claimC1 (t : Nat) :
    (get_check_times t).length = 4 ∧
    (get_check_times t).Nodup ∧
    (∀ c ∈ get_check_times t, t < c ∧ c ≤ t + usPerHour ∧
      secondOf c = 0 ∧ microOf c = 0) ∧
    (get_check_times t).map minuteOf = [2, 17, 32, 47] := by
  obtain ⟨g2, l2, m2, s2, u2⟩ := check_time_for_spec t 2 (by norm_num)
  obtain ⟨g17, l17, m17, s17, u17⟩ := check_time_for_spec t 17 (by norm_num)
  obtain ⟨g32, l32, m32, s32, u32⟩ := check_time_for_spec t 32 (by norm_num)
  obtain ⟨g47, l47, m47, s47, u47⟩ := check_time_for_spec t 47 (by norm_num)
  have ne_of_minute : ∀ a b : Nat, minuteOf (check_time_for t a) = a →
      minuteOf (check_time_for t b) = b → a ≠ b →
      check_time_for t a ≠ check_time_for t b := by
    intro a b ha hb hab e
    rw [e, hb] at ha
    exact hab ha.symm
  have hl : get_check_times t =
      [check_time_for t 2, check_time_for t 17, check_time_for t 32,
        check_time_for t 47] := rfl
  rw [hl]
  refine ⟨rfl, ?_, ?_, ?_⟩
  · refine List.nodup_cons.mpr ⟨?_, List.nodup_cons.mpr ⟨?_,
      List.nodup_cons.mpr ⟨?_, List.nodup_singleton _⟩⟩⟩ <;>
      simp only [List.mem_cons, List.not_mem_nil, or_false] <;> push_neg
    · exact ⟨ne_of_minute 2 17 m2 m17 (by norm_num),
        ne_of_minute 2 32 m2 m32 (by norm_num),
        ne_of_minute 2 47 m2 m47 (by norm_num)⟩
    · exact ⟨ne_of_minute 17 32 m17 m32 (by norm_num),
        ne_of_minute 17 47 m17 m47 (by norm_num)⟩
    · exact ne_of_minute 32 47 m32 m47 (by norm_num)
  · intro c hc
    simp only [List.mem_cons, List.not_mem_nil, or_false] at hc
    rcases hc with h | h | h | h <;> subst h
    · exact ⟨g2, l2, s2, u2⟩
    · exact ⟨g17, l17, s17, u17⟩
    · exact ⟨g32, l32, s32, u32⟩
    · exact ⟨g47, l47, s47, u47⟩
  · simp only [List.map_cons, List.map_nil, m2, m17, m32, m47]

/-!
`should_update` (lines 40-58).  Inside the function every checkpoint and
`now` carry the pytz-localized +08:00 offset, so the comparisons
`t > now` / `t <= now` among them are wall-clock comparisons; only the
final `last_update_time < prev_check_time` can mix offsets, so it is an
instant comparison between `Aware` values.  `now` is passed as the wall
time returned by `get_hk_time()` (offset +08:00).
-/

/-- `next_check_time` (lines 45-46): `min(next_check_times) if
next_check_times else now`. -/
def next_check_time (now : Nat) : Nat :=
  match ((get_check_times now).filter (fun c => decide (now < c))).min? with
  | some v => v
  | none => now

/-- `prev_check_time` (lines 49-50): `max(prev_check_times) if
prev_check_times else now - timedelta(hours=1)`, carried with the +08:00
offset of `now`. -/
def prev_check_time (now : Nat) : Aware :=
  match ((get_check_times now).filter (fun c => decide (c ≤ now))).max? with
  | some v => ⟨v, hkOffset⟩
  | none => ⟨now - usPerHour, hkOffset⟩

/-- `should_update(last_update_time)` (lines 40-58): `return
last_update_time < prev_check_time`, an aware-datetime (instant)
comparison. -/
def should_update (now : Nat) (last : Aware) : Bool :=
  decide (instant last < instant (prev_check_time now))

/-- Every element of `get_check_times now` is strictly greater than
`now`. -/
theorem check_times_gt (now : Nat) : ∀ c ∈ get_check_times now, now < c := by
  intro c hc
  have hl : get_check_times now =
      [check_time_for now 2, check_time_for now 17, check_time_for now 32,
        check_time_for now 47] := rfl
  rw [hl] at hc
  simp only [List.mem_cons, List.not_mem_nil, or_false] at hc
  rcases hc with h | h | h | h <;> subst h
  · exact (check_time_for_spec now 2 (by norm_num)).1
  · exact (check_time_for_spec now 17 (by norm_num)).1
  · exact (check_time_for_spec now 32 (by norm_num)).1
  · exact (check_time_for_spec now 47 (by norm_num)).1

/-- The previous-checkpoint filter in `should_update` is empty for every
`now`, because every element of `get_check_times now` is strictly greater
than `now`. -/
theorem prev_filter_empty (now : Nat) :
    (get_check_times now).filter (fun c => decide (c ≤ now)) = [] := by
  rw [List.filter_eq_nil_iff]
  intro c hc
  have := check_times_gt now c hc
  simp only [decide_eq_true_eq]
  omega

/-- The `prev` fallback always fires: `prev_check_time now` is always
`now - 1h` (at offset +08:00). -/
theorem prev_check_time_eq (now : Nat) :
    prev_check_time now = ⟨now - usPerHour, hkOffset⟩ := by
  unfold prev_check_time
  rw [prev_filter_empty]
  rfl

/-- C2: for every `now` (at least one hour past the epoch, so that
`now - 1h` is a genuine datetime) and every `lastUpdate`, the checkpoint
list of `should_update` contains no element `<= now`, the `prev` fallback
fires, and `should_update` is equivalent to the instant comparison
`lastUpdate < now - 1h`; no checkpoint of the current hour is ever
compared against `lastUpdate`. -/
theorem claimC2 (now : Nat) (h : usPerHour ≤ now) (last : Aware) :
    (get_check_times now).filter (fun c => decide (c ≤ now)) = [] ∧
    prev_check_time now = ⟨now - usPerHour, hkOffset⟩ ∧
    should_update now last =
      decide (instant last <
        (now : Int) - (usPerHour : Int) - (hkOffset : Int) * 1000000) := by
  refine ⟨prev_filter_empty now, prev_check_time_eq now, ?_⟩
  unfold should_update
  rw [prev_check_time_eq]
  have : instant ⟨now - usPerHour, hkOffset⟩ =
      (now : Int) - (usPerHour : Int) - (hkOffset : Int) * 1000000 := by
    unfold instant
    simp only
    omega
  rw [this]

/-- Witness for C2 at `now` = 12:05:00 and `lastUpdate` = 11:50:00 of the
same day (offset +08:00). -/
theorem claimC2_witness :
    (get_check_times 43500000000).filter (fun c => decide (c ≤ 43500000000)) = [] ∧
    prev_check_time 43500000000 = ⟨43500000000 - usPerHour, hkOffset⟩ ∧
    should_update 43500000000 ⟨42600000000, hkOffset⟩ =
      decide (instant ⟨42600000000, hkOffset⟩ <
        (43500000000 : Int) - (usPerHour : Int) - (hkOffset : Int) * 1000000) :=
  claimC2 43500000000 (by norm_num [usPerHour]) ⟨42600000000, hkOffset⟩

/-- C3 (evaluation at the spec's scenario): at `now` = 12:05:00 the
previous check time computed by `should_update` is 11:05:00, not the
12:02 checkpoint the spec names, and with `lastUpdate` = 11:50:00 of the
same day `should_update` returns `false`, not `true`. -/
theorem claimC3 :
    prev_check_time 43500000000 = ⟨39900000000, hkOffset⟩ ∧
    should_update 43500000000 ⟨42600000000, hkOffset⟩ = false := by
  constructor
  · rw [prev_check_time_eq]
    rfl
  · rfl

/-- C4 (evaluation at the claim's scenario): with `lastUpdate` stored
exactly at the 12:02:00 checkpoint, `should_update` is `false` at
12:05:00 and 12:16:00 (inside the claimed quiet window) but still `false`
at 12:18:00, after the next checkpoint 12:17:00 has been crossed, where
the claim requires `true`. -/
theorem claimC4 :
    should_update 43680000000 ⟨43320000000, hkOffset⟩ = false ∧
    should_update 44160000000 ⟨43320000000, hkOffset⟩ = false ∧
    should_update 44280000000 ⟨43320000000, hkOffset⟩ = false := by
  refine ⟨rfl, rfl, rfl⟩

/-- C5: at `now` = 12:05:00 with `lastUpdate` = 12:03:00 of the same day,
`should_update` returns `false`; and in general a `lastUpdate` exactly
equal to the previous check time computed by the code yields no update,
because the comparison is strict. -/
theorem claimC5 :
    should_update 43500000000 ⟨43380000000, hkOffset⟩ = false ∧
    ∀ now : Nat, ∀ last : Aware, last = prev_check_time now →
      should_update now last = false := by
  constructor
  · rfl
  · intro now last h
    subst h
    unfold should_update
    simp

/-- Witness for the hypothesis of the second part of C5: a `lastUpdate`
exactly equal to the computed previous check time at 12:05:00 yields
`false`. -/
theorem claimC5_witness :
    should_update 43500000000 (prev_check_time 43500000000) = false :=
  claimC5.2 43500000000 (prev_check_time 43500000000) rfl

/-!
The orchestrator `check_and_update` (lines 158-196) and `update_dataset`
(lines 82-126).  Remote storage is modelled as a map from the calendar day
(derived from the Hong Kong wall clock, as `strftime("%Y-%m-%d")` does)
to the optional content of that day's `data_YYYY-MM-DD.json` file; `none`
covers both a missing file (`hf_hub_download` raising) and unparseable
content (`json.load` raising).  The outcome of `fetch_data` for the cycle
is an `Except` parameter (`requests` raising vs. the extracted records),
and `upload_file`/`create_repo` success is a `Bool` parameter; both are
fixed for the duration of one cycle.  `update_readme` only regenerates
derived metadata and is not modelled.  Timestamps are written with
`timestamp.isoformat()` from a +08:00-aware datetime, which `fromisoformat`
reads back exactly, so a stored snapshot keeps the wall clock of the `now`
that produced it.
-/

/-- One hospital record as extracted by `fetch_data` (lines 69-74). -/
structure WaitRecord where
  hospNameEn : String
  hospNameCh : String
  topWait : String
  hospTimeEn : String
deriving DecidableEq

/-- One element of the day file's `data` array (lines 106-109): the
timestamp is the +08:00 wall clock serialized by `isoformat()`. -/
structure Snapshot where
  timestamp : Nat
  hospitals : List WaitRecord
deriving DecidableEq

/-- Remote dataset state: day index to optional day-file content. -/
def Store := Nat → Option (List Snapshot)

/-- The calendar day of a Hong Kong wall time (`strftime("%Y-%m-%d")`). -/
def dayOf (t : Nat) : Nat := t / usPerDay

/-- Line 171: `datetime.fromisoformat(... ["timestamp"]).replace(tzinfo=hk_tz)`.
`fromisoformat` recovers the stored wall clock exactly, and `.replace`
swaps the parsed +08:00 offset for the raw pytz zone object, whose
reported offset is the zone's base LMT value `hkLMT`. -/
def parse_stored (w : Nat) : Aware := ⟨w, hkLMT⟩

/-- `update_dataset(new_data, repo_id, timestamp=now)` (lines 82-126):
re-download today's file (any failure, including a missing file, yields
`{"data": []}`), append one entry `{timestamp, hospitals}`, and upload the
whole file; `create_repo`/`upload_file` failure raises. -/
def update_dataset (store : Store) (now : Nat) (data : List WaitRecord)
    (uploadOk : Bool) : Except String Store :=
  let d := dayOf now
  let existing := (store d).getD []
  let newList := existing ++ [⟨now, data⟩]
  if uploadOk then .ok (fun e => if e = d then some newList else store e)
  else .error "upload failed"

/-- The `except` block of `check_and_update` (lines 190-196): fetch and
write again, unprotected, so a failure here propagates out of the
function. -/
def rescue_cycle (now : Nat) (fetch : Except String (List WaitRecord))
    (uploadOk : Bool) (store : Store) : Except String Store :=
  match fetch with
  | .error e => .error e
  | .ok data => update_dataset store now data uploadOk

/-- A fetch-and-write attempt inside the `try` block (lines 176-178 and
186-188): a failure of `fetch_data` or `update_dataset` here is the
exception that lands in the `except` block, i.e. in `rescue_cycle`. -/
def attempt_cycle (now : Nat) (fetch : Except String (List WaitRecord))
    (uploadOk : Bool) (store : Store) : Except String Store :=
  match fetch with
  | .error _ => rescue_cycle now fetch uploadOk store
  | .ok data =>
    match update_dataset store now data uploadOk with
    | .ok s => .ok s
    | .error _ => rescue_cycle now fetch uploadOk store

/-- `check_and_update(repo_id)` (lines 158-196).  The `try` block reads
today's file; on a non-empty `data` array it parses the last entry's
timestamp and consults `should_update`, otherwise it fetches and writes
unconditionally; any exception in the `try` block falls into
`rescue_cycle`. -/
def check_and_update (now : Nat) (fetch : Except String (List WaitRecord))
    (uploadOk : Bool) (store : Store) : Except String Store :=
  match store (dayOf now) with
  | none => rescue_cycle now fetch uploadOk store
  | some daily =>
    match daily.getLast? with
    | some entry =>
      if should_update now (parse_stored entry.timestamp) then
        attempt_cycle now fetch uploadOk store
      else .ok store
    | none => attempt_cycle now fetch uploadOk store

/-- C6 (evaluation at the failing input): today's file holds one snapshot
taken at 10:42:00; two cycles run at 12:05:00 and 12:06:00, one minute
apart, with no checkpoint between them (the next checkpoint after
12:05:00 is 12:17:00) and with the partition non-empty after the first
call.  The first call is a no-op, yet the second call writes a new
snapshot: the gate is the sliding threshold `last < now - 1h - 23min`,
not checkpoint crossing, so the pair is not idempotent. -/
theorem claimC6 :
    check_and_update 43500000000 (.ok []) true
        (fun d => if d = 0 then some [⟨38520000000, []⟩] else none) =
      .ok (fun d => if d = 0 then some [⟨38520000000, []⟩] else none) ∧
    (match check_and_update 43560000000 (.ok []) true
        (fun d => if d = 0 then some [⟨38520000000, []⟩] else none) with
      | .ok s => s 0
      | .error _ => none) =
      some [⟨38520000000, []⟩, ⟨43560000000, []⟩] := by
  exact ⟨rfl, rfl⟩

/-- C7 (evaluation at the failing input): a snapshot timestamp written at
12:05:00 +08:00 and read back through
`fromisoformat(...).replace(tzinfo=hk_tz)` does not equal the original
instant; it lands 1380 seconds (23 minutes) later, because the attached
pytz zone reports its base LMT offset +7:37 instead of +8:00. -/
theorem claimC7 :
    instant (parse_stored (Aware.mk 43500000000 hkOffset).wall) ≠
      instant (Aware.mk 43500000000 hkOffset) ∧
    instant (parse_stored (Aware.mk 43500000000 hkOffset).wall) =
      instant (Aware.mk 43500000000 hkOffset) + 1380 * 1000000 := by
  exact ⟨by decide, by decide⟩

/-- C8 as amended: when the cycle's fetch succeeds and uploads succeed,
`check_and_update` never raises, whatever the stored state — exceptions
in the `try` block (missing file, unparseable file) are caught and the
rescue path completes. -/
theorem claimC8 (now : Nat) (store : Store) (data : List WaitRecord) :
    ∃ s, check_and_update now (.ok data) true store = .ok s := by
  unfold check_and_update
  split
  · exact ⟨_, rfl⟩
  · split
    · split
      · exact ⟨_, rfl⟩
      · exact ⟨store, rfl⟩
    · exact ⟨_, rfl⟩

/-- C8 counterexample: with no file stored for the day and the upstream
fetch failing, the exception raised by the retry inside the `except`
block propagates out of `check_and_update` — nothing is recorded to any
error partition (none exists in the code) and the process terminates
abnormally. -/
theorem claimC8_counterexample :
    check_and_update 43500000000 (.error "network down") true
      (fun _ => none) = .error "network down" := rfl

/-- C9: if reading today's partition fails with NotFound (no file for the
date) and the cycle's fetch and upload succeed, `check_and_update` does
not raise and the resulting store holds a newly created partition with
exactly one snapshot timestamped at the current time. -/
theorem claimC9 (now : Nat) (store : Store) (data : List WaitRecord)
    (h : store (dayOf now) = none) :
    check_and_update now (.ok data) true store =
      .ok (fun e => if e = dayOf now then some [⟨now, data⟩] else store e) := by
  unfold check_and_update rescue_cycle update_dataset
  simp only [h, Option.getD_none, List.nil_append]
  rfl

/-- Witness for C9: a run at 12:05:00 of day 0 over an empty store
creates the day-0 partition with the single snapshot taken at that
time. -/
theorem claimC9_witness :
    check_and_update 43500000000 (.ok []) true (fun _ => none) =
      .ok (fun e => if e = dayOf 43500000000
        then some [⟨43500000000, []⟩] else none) :=
  claimC9 43500000000 (fun _ => none) [] rfl

/-!
Serialization of string values (C10).  Line 112 serializes the partition
with `json.dumps(existing_data, ensure_ascii=False, indent=2)` and line
117 uploads the UTF-8 encoding of that text; the read path (lines 99-100,
167-168) decodes UTF-8 and runs `json.load`.  The treatment of each
string value (the hospital-name fields) is modelled here:
`jsonEscapeChar` is `json.dumps`'s per-character escaping (the
`ESCAPE_DCT` table, `\u00xx` for other control characters, and — only
when `ensure_ascii` is true — `\uxxxx` with surrogate pairs for
non-ASCII), and `jsonUnescape` is the string scanner of `json.load`
(BMP escapes; surrogate-pair recombination is not needed on the
`ensure_ascii=False` path proved about below).
-/

/-- Lowercase hexadecimal digit, as Python's `\uXXXX` escapes print. -/
def hexDigit (n : Nat) : Char :=
  if n < 10 then Char.ofNat (48 + n) else Char.ofNat (87 + n)

/-- Four-digit hexadecimal rendering of a code unit. -/
def hex4 (n : Nat) : List Char :=
  [hexDigit (n / 4096 % 16), hexDigit (n / 256 % 16),
    hexDigit (n / 16 % 16), hexDigit (n % 16)]

/-- How `json.dumps` serializes one character of a string value. -/
def jsonEscapeChar (ensureAscii : Bool) (c : Char) : List Char :=
  if c = '"' then ['\\', '"']
  else if c = '\\' then ['\\', '\\']
  else if c = Char.ofNat 8 then ['\\', 'b']
  else if c = Char.ofNat 12 then ['\\', 'f']
  else if c = '\n' then ['\\', 'n']
  else if c = '\r' then ['\\', 'r']
  else if c = '\t' then ['\\', 't']
  else if c.toNat < 32 then '\\' :: 'u' :: hex4 c.toNat
  else if ensureAscii ∧ 127 ≤ c.toNat then
    if c.toNat < 65536 then '\\' :: 'u' :: hex4 c.toNat
    else '\\' :: 'u' :: hex4 (55296 + (c.toNat - 65536) / 1024) ++
      '\\' :: 'u' :: hex4 (56320 + (c.toNat - 65536) % 1024)
  else [c]

/-- The serialized body of one JSON string value (between the quotes). -/
def jsonEncodeBody (ensureAscii : Bool) (l : List Char) : List Char :=
  (l.map (jsonEscapeChar ensureAscii)).flatten

/-- Value of one hexadecimal digit, as `json.load` reads it. -/
def hexVal (c : Char) : Option Nat :=
  if 48 ≤ c.toNat ∧ c.toNat ≤ 57 then some (c.toNat - 48)
  else if 97 ≤ c.toNat ∧ c.toNat ≤ 102 then some (c.toNat - 87)
  else if 65 ≤ c.toNat ∧ c.toNat ≤ 70 then some (c.toNat - 55)
  else none

/-- The string scanner of `json.load` applied to a string body: ordinary
characters are taken literally, backslash escapes are decoded. -/
def jsonUnescape : List Char → Option (List Char)
  | [] => some []
  | c :: rest =>
    if c = '\\' then
      match rest with
      | [] => none
      | e :: rest2 =>
        if e = '"' then (jsonUnescape rest2).map (fun l => '"' :: l)
        else if e = '\\' then (jsonUnescape rest2).map (fun l => '\\' :: l)
        else if e = 'b' then (jsonUnescape rest2).map (fun l => Char.ofNat 8 :: l)
        else if e = 'f' then (jsonUnescape rest2).map (fun l => Char.ofNat 12 :: l)
        else if e = 'n' then (jsonUnescape rest2).map (fun l => '\n' :: l)
        else if e = 'r' then (jsonUnescape rest2).map (fun l => '\r' :: l)
        else if e = 't' then (jsonUnescape rest2).map (fun l => '\t' :: l)
        else if e = 'u' then
          match rest2 with
          | h1 :: h2 :: h3 :: h4 :: rest3 =>
            match hexVal h1, hexVal h2, hexVal h3, hexVal h4 with
            | some a, some b, some c2, some d2 =>
              (jsonUnescape rest3).map
                (fun l => Char.ofNat (a * 4096 + b * 256 + c2 * 16 + d2) :: l)
            | _, _, _, _ => none
          | _ => none
        else none
    else (jsonUnescape rest).map (fun l => c :: l)

/-- A printable character other than the quote and the backslash is
serialized as itself when `ensure_ascii` is off. -/
theorem jsonEscapeChar_id (c : Char) (h32 : 32 ≤ c.toNat)
    (hq : c ≠ '"') (hb : c ≠ '\\') : jsonEscapeChar false c = [c] := by
  unfold jsonEscapeChar
  rw [if_neg hq, if_neg hb]
  rw [if_neg (fun e => absurd (e ▸ h32) (by decide))]
  rw [if_neg (fun e => absurd (e ▸ h32) (by decide))]
  rw [if_neg (fun e => absurd (e ▸ h32) (by decide))]
  rw [if_neg (fun e => absurd (e ▸ h32) (by decide))]
  rw [if_neg (fun e => absurd (e ▸ h32) (by decide))]
  rw [if_neg (by omega)]
  rw [if_neg (by simp)]

/-- A body with no escapes at all is serialized verbatim. -/
theorem jsonEncodeBody_id (l : List Char)
    (h : ∀ c ∈ l, 32 ≤ c.toNat ∧ c ≠ '"' ∧ c ≠ '\\') :
    jsonEncodeBody false l = l := by
  induction l with
  | nil => rfl
  | cons c tl ih =>
    obtain ⟨h32, hq, hb⟩ := h c (List.mem_cons_self c tl)
    have htl := fun x hx => h x (List.mem_cons_of_mem c hx)
    unfold jsonEncodeBody at *
    rw [List.map_cons, List.flatten_cons, jsonEscapeChar_id c h32 hq hb, ih htl]
    rfl

/-- The scanner returns an escape-free body verbatim. -/
theorem jsonUnescape_plain (l : List Char) (h : ∀ c ∈ l, c ≠ '\\') :
    jsonUnescape l = some l := by
  induction l with
  | nil => rfl
  | cons c tl ih =>
    have hc := h c (List.mem_cons_self c tl)
    have htl := fun x hx => h x (List.mem_cons_of_mem c hx)
    unfold jsonUnescape
    rw [if_neg hc, ih htl]
    rfl

/-- C10: with `ensure_ascii=False` as `update_dataset` passes it, a
hospital-name string made of printable characters (no quote, no
backslash — which covers all non-ASCII scripts) is serialized verbatim:
the written body is byte-identical to the name, contains no backslash
(hence no `\uXXXX` escape), and `json.load`'s scanner reads it back
unchanged. -/
theorem claimC10 (name : String)
    (h : ∀ c ∈ name.data, 32 ≤ c.toNat ∧ c ≠ '"' ∧ c ≠ '\\') :
    jsonEncodeBody false name.data = name.data ∧
    '\\' ∉ jsonEncodeBody false name.data ∧
    jsonUnescape (jsonEncodeBody false name.data) = some name.data := by
  have hid := jsonEncodeBody_id name.data h
  refine ⟨hid, ?_, ?_⟩
  · rw [hid]
    intro hm
    exact (h _ hm).2.2 rfl
  · rw [hid]
    exact jsonUnescape_plain name.data (fun c hc => (h c hc).2.2)

/-- Witness for C10 at the Chinese hospital name 仁濟醫院. -/
theorem claimC10_witness :
    jsonEncodeBody false "仁濟醫院".data = "仁濟醫院".data ∧
    '\\' ∉ jsonEncodeBody false "仁濟醫院".data ∧
    jsonUnescape (jsonEncodeBody false "仁濟醫院".data) =
      some "仁濟醫院".data :=
  claimC10 "仁濟醫院" (by decide)
